import Mathlib

/-!
Locale-aware number formatting: separator extraction, punctuation facet, backend dispatch.

A verification development over `src/main.cpp`.

Conventions of the embedding:

* a `std::string` is a `List Nat`, one entry per `char`, each entry the byte value
  of the character (`0 .. 255`); a single `char` is a `Nat`;
* an iterator into a string is the index it points at, `cend()` being the length;
* text written with `fmt::print` is collected as a list of print calls, each the
  bytes it wrote; the bytes that reach standard output are their concatenation;
* calls into Boost.Locale, ICU, `{fmt}`, iostreams and Qt are not interpreted: the
  objects they build and the strings they render are kept as terms recording the
  call and its arguments.
-/

set_option linter.dupNamespace false

namespace LocaleFmt

/-! ## Separator extraction (`get_sep`, `get_thousand_sep`, `get_decim_sep`) -/

/-- `std::find(first, last, c)` on the characters `rest` of `[first, last)`, where
`first` is the index of the first of them: the index of the first character equal
to `c`, or the index of `last` when there is none. -/
def find_from (first : Nat) : List Nat → Nat → Nat
  | [], _ => first
  | x :: rest, c => if x = c then first else find_from (first + 1) rest c

/-- `std::find(str.cbegin() + first, str.cend(), c)`. -/
def find (str : List Nat) (first : Nat) (c : Nat) : Nat :=
  find_from first (str.drop first) c

/-- `get_sep` (main.cpp, lines 104-113). -/
def get_sep (str : List Nat) (start end_ : Nat) : List Nat :=
  let it := find str 0 start
  if it = str.length then []
  else
    let it := it + 1
    let end_it := find str it end_
    let len := end_it - it
    if len = 0 then [] else (str.drop it).take len

/-- `get_thousand_sep` (main.cpp, lines 115-118). -/
def get_thousand_sep (str : List Nat) (start end_ : Nat) : List Nat :=
  get_sep str start end_

/-- `get_decim_sep` (main.cpp, lines 120-123). -/
def get_decim_sep (str : List Nat) (start end_ : Nat) : List Nat :=
  get_sep str start end_

/-! ## The punctuation facet built from ICU (`icu_numpunct`) -/

/-- The bytes of a string literal of the source (the literals are ASCII). -/
def lit (s : String) : List Nat := s.data.map Char.toNat

/-- One lower-case hexadecimal digit as a character. -/
def hex_digit (d : Nat) : Nat := if d < 10 then 48 + d else 87 + d

/-- `fmt::format("{:#x}", c)` for a `uint8_t c`: the prefix `0x` and the value in
lower-case hexadecimal without leading zeros. The conversion of a `char` to
`uint8_t` is the reduction modulo `2^8`. -/
def fmt_hex (c : Nat) : List Nat :=
  let c := c % 256
  [48, 120] ++ (if c < 16 then [hex_digit c] else [hex_digit (c / 16), hex_digit (c % 16)])

/-- The data members of `icu_numpunct<char>` (main.cpp, lines 84-86). -/
structure icu_numpunct where
  decimal_point_ : List Nat
  thousands_sep_ : List Nat
  grouping_ : List Nat
  deriving DecidableEq, Repr

/-- The loop `for (uint8_t c : s) acc += fmt::format("{:#x} ", c);` started on an
empty `acc` (main.cpp, lines 53-55 and 61-63). -/
def hex_dump (s : List Nat) : List Nat :=
  s.foldl (fun acc c => acc ++ (fmt_hex c ++ [32])) []

/-- The constructor `icu_numpunct::icu_numpunct` (main.cpp, lines 37-67).

What ICU answers for the locale is taken as input: `decimal_symbol` and
`separator_symbol` are the two symbols of `DecimalFormatSymbols` as
`convertUnicodeString` returns them (their UTF-8 bytes), `grouping_size` is the
`int32_t` that `unum_getAttribute(numformat, UNUM_GROUPING_SIZE)` returns.

The result is the constructed object and the `fmt::print` calls made, in order. -/
def icu_numpunct.icu_numpunct (decimal_symbol separator_symbol : List Nat)
    (grouping_size : Int) : LocaleFmt.icu_numpunct × List (List Nat) :=
  -- char size = unum_getAttribute(...): the narrowing conversion to one byte
  let size : Nat := (grouping_size % 256).toNat
  let decimal_point_ := decimal_symbol
  let thousands_sep_ := separator_symbol
  let grouping_ := [size]
  let out : List (List Nat) := []
  let (decimal_point_, out) :=
    if decimal_point_.length > 1 then
      let decimal_point := hex_dump decimal_point_
      let out := out ++ [lit "Truncating decimal separator '" ++ decimal_point_
        ++ lit "' - " ++ decimal_point ++ [10]]
      ([46], out)
    else (decimal_point_, out)
  let (thousands_sep_, out) :=
    if thousands_sep_.length > 1 then
      let thousands_sep := hex_dump thousands_sep_
      let out := out ++ [lit "Truncating thousands separator '" ++ thousands_sep_
        ++ lit "' - " ++ thousands_sep ++ [10]]
      ([32], out)
    else (thousands_sep_, out)
  ({ decimal_point_ := decimal_point_, thousands_sep_ := thousands_sep_,
     grouping_ := grouping_ }, out)

/-- `icu_numpunct::do_decimal_point` (main.cpp, lines 70-73). -/
def icu_numpunct.do_decimal_point (self : LocaleFmt.icu_numpunct) : Nat :=
  match self.decimal_point_ with
  | [] => 0
  | c :: _ => c

/-- `icu_numpunct::do_thousands_sep` (main.cpp, lines 74-77). -/
def icu_numpunct.do_thousands_sep (self : LocaleFmt.icu_numpunct) : Nat :=
  match self.thousands_sep_ with
  | [] => 0
  | c :: _ => c

/-- `icu_numpunct::do_grouping` (main.cpp, lines 78-81). -/
def icu_numpunct.do_grouping (self : LocaleFmt.icu_numpunct) : List Nat :=
  self.grouping_

/-- What a `std::numpunct<char>` facet answers: `decimal_point()`,
`thousands_sep()` and `grouping()`. -/
structure numpunct where
  decimal_point : Nat
  thousands_sep : Nat
  grouping : List Nat
  deriving DecidableEq, Repr

/-- The values `inspect_locale` reports: the arguments of its `fmt::print` call
and the bytes the call writes. -/
structure Inspection where
  grouping_string : List Nat
  thousands_sep : Nat
  decim_sep : Nat
  printed : List Nat
  deriving DecidableEq, Repr

/-- `inspect_locale` (main.cpp, lines 89-102); the locale is given by the
`std::numpunct<char>` facet that `std::use_facet` finds in it. -/
def inspect_locale (facet : numpunct) : Inspection :=
  let grouping := facet.grouping
  let thousands_sep := if grouping.isEmpty then 0 else facet.thousands_sep
  let decim_sep := facet.decimal_point
  let grouping_string := grouping.foldl (fun acc c => acc ++ fmt_hex c) []
  { grouping_string := grouping_string
    thousands_sep := thousands_sep
    decim_sep := decim_sep
    printed := lit "G: '" ++ grouping_string ++ lit "', T: '" ++ [thousands_sep]
      ++ lit "' - " ++ fmt_hex thousands_sep ++ lit ", D: '" ++ [decim_sep] ++ lit "'\n" }

/-! ## Backend dispatch and rendering (`format_int`, `format_double`) -/

/-- `enum class LocaleBackend` (main.cpp, lines 125-137), in the build that defines
`QT_BACKEND`; the build without it has the same enumerators except `Qt`. -/
inductive LocaleBackend where
  | FMTBoostICU
  | FMTBoostICUMod
  | FMTBoostPosix
  | FMTBoostStd
  | Qt
  | StreamBoostICU
  | StreamBoostPosix
  | StreamBoostStd
  deriving DecidableEq, Repr

/-- A `boost::locale::localization_backend_manager` object, as far as the program
uses one: the provider named by the last `select` made on it. -/
structure localization_backend_manager where
  selected : String
  deriving DecidableEq, Repr

/-- `localization_backend_manager::select(name)`: a member function, it changes the
object it is called on. -/
def localization_backend_manager.select (self : localization_backend_manager)
    (name : String) : localization_backend_manager :=
  { self with selected := name }

/-- The process-wide state: the manager that
`localization_backend_manager::global()` reads. The no-argument `global()` is the
getter of Boost.Locale and returns a `localization_backend_manager` by value; the
installed manager is replaced only by the one-argument `global(mgr)`, which the
program never calls. -/
structure Process where
  global : localization_backend_manager
  deriving DecidableEq, Repr

/-- A `std::locale` object, recorded by the calls that built it. -/
inductive Locale where
  /-- The result of `gen(locale_str)` for `boost::locale::generator gen(backend_manager)`. -/
  | generated (backend_manager : localization_backend_manager) (locale_str : String)
  /-- The result of `std::locale(locale, new icu_numpunct<char>(icuLocale))`, where
  `icuLocale` is `icu::Locale(language, country, encoding)` with the three strings
  read from the `boost::locale::info` facet of `locale`. -/
  | with_icu_numpunct (locale : Locale)
  deriving DecidableEq, Repr

/-- What is inserted into a stream with `<<`, or passed to `fmt::format` as an
argument. -/
inductive Item where
  | setprecision (n : Int)
  | fixed
  | as_number
  | int_val (val : Int)
  | double_val (val : Float)

/-- The returned string, recorded by the library call that renders it. -/
inductive Rendering where
  /-- The result of `QLocale(locale_str).toString(val)`. -/
  | qt_int (locale_str : String) (val : Int)
  /-- The result of `QLocale(locale_str).toString(val, 'f', prec)`. -/
  | qt_double (locale_str : String) (val : Float) (prec : Int)
  /-- The result of `ss.str()` after `ss.imbue(locale)` and the insertions of `items`,
  in order, into the `std::stringstream ss`. -/
  | stream (locale : Locale) (items : List Item)
  /-- The result of `fmt::format(locale, format_str, args...)`. -/
  | fmt_format (locale : Locale) (format_str : String) (args : List Item)

/-- `format_int` (main.cpp, lines 139-178). The process state is passed in and the
process state after the call is returned with the result. -/
def format_int (val : Int) (locale_str : String) (backend_type : LocaleBackend)
    (proc : Process) : Rendering × Process :=
  if backend_type = LocaleBackend.Qt then
    (Rendering.qt_int locale_str val, proc)
  else
    -- auto backend_manager = localization_backend_manager::global();  a copy
    let backend_manager := proc.global
    let backend_manager :=
      if backend_type = LocaleBackend.FMTBoostPosix ∨ backend_type = LocaleBackend.StreamBoostPosix then
        backend_manager.select "posix"
      else if backend_type = LocaleBackend.FMTBoostStd ∨ backend_type = LocaleBackend.StreamBoostStd then
        backend_manager.select "std"
      else
        backend_manager.select "icu"
    let locale := Locale.generated backend_manager locale_str
    let locale :=
      if backend_type = LocaleBackend.FMTBoostICUMod then Locale.with_icu_numpunct locale
      else locale
    if backend_type = LocaleBackend.StreamBoostICU ∨ backend_type = LocaleBackend.StreamBoostPosix
        ∨ backend_type = LocaleBackend.StreamBoostStd then
      (Rendering.stream locale [Item.as_number, Item.int_val val], proc)
    else
      (Rendering.fmt_format locale "\x7b:L\x7d" [Item.int_val val], proc)

/-- `format_double` (main.cpp, lines 180-219). The process state is passed in and
the process state after the call is returned with the result. -/
def format_double (val : Float) (prec : Int) (locale_str : String)
    (backend_type : LocaleBackend) (proc : Process) : Rendering × Process :=
  if backend_type = LocaleBackend.Qt then
    (Rendering.qt_double locale_str val prec, proc)
  else
    -- auto backend = localization_backend_manager::global();  a copy
    let backend := proc.global
    let backend :=
      if backend_type = LocaleBackend.FMTBoostPosix ∨ backend_type = LocaleBackend.StreamBoostPosix then
        backend.select "posix"
      else if backend_type = LocaleBackend.FMTBoostStd ∨ backend_type = LocaleBackend.StreamBoostStd then
        backend.select "std"
      else
        backend.select "icu"
    let locale := Locale.generated backend locale_str
    let locale :=
      if backend_type = LocaleBackend.FMTBoostICUMod then Locale.with_icu_numpunct locale
      else locale
    if backend_type = LocaleBackend.StreamBoostICU ∨ backend_type = LocaleBackend.StreamBoostPosix
        ∨ backend_type = LocaleBackend.StreamBoostStd then
      (Rendering.stream locale
        [Item.setprecision prec, Item.fixed, Item.as_number, Item.double_val val], proc)
    else
      (Rendering.fmt_format locale "\x7b:.\x7b\x7dLf\x7d" [Item.double_val val, Item.int_val prec], proc)

/-! ## Observations on the recorded calls -/

/-- The manager the generator that made a locale was built on. -/
def Locale.backend_manager : Locale → localization_backend_manager
  | Locale.generated backend_manager _ => backend_manager
  | Locale.with_icu_numpunct locale => locale.backend_manager

/-- The locale string a locale was generated for. -/
def Locale.locale_str : Locale → String
  | Locale.generated _ locale_str => locale_str
  | Locale.with_icu_numpunct locale => locale.locale_str

/-- Whether an `icu_numpunct<char>` facet has been installed in a locale. -/
def Locale.has_icu_numpunct : Locale → Bool
  | Locale.generated _ _ => false
  | Locale.with_icu_numpunct _ => true

/-- The `std::locale` a rendering was made with, when one was built. -/
def Rendering.locale? : Rendering → Option Locale
  | Rendering.qt_int _ _ => none
  | Rendering.qt_double _ _ _ => none
  | Rendering.stream locale _ => some locale
  | Rendering.fmt_format locale _ _ => some locale

/-- Whether a rendering went through a `std::stringstream`. -/
def Rendering.is_stream : Rendering → Bool
  | Rendering.stream _ _ => true
  | _ => false

/-- Whether a rendering went through `fmt::format`. -/
def Rendering.is_fmt : Rendering → Bool
  | Rendering.fmt_format _ _ _ => true
  | _ => false

/-! ## Theorems: separator extraction -/

theorem find_from_not_mem (first : Nat) (l : List Nat) (c : Nat) (h : c ∉ l) :
    find_from first l c = first + l.length := by
  induction l generalizing first with
  | nil => simp [find_from]
  | cons x rest ih =>
    have hx : x ≠ c := fun e => h (by simp [e])
    have hr : c ∉ rest := fun m => h (List.mem_cons_of_mem _ m)
    simp only [find_from, if_neg hx, ih (first + 1) hr, List.length_cons]
    omega

theorem find_from_append (first : Nat) (pre rest : List Nat) (c : Nat) (h : c ∉ pre) :
    find_from first (pre ++ c :: rest) c = first + pre.length := by
  induction pre generalizing first with
  | nil => simp [find_from]
  | cons x pre ih =>
    have hx : x ≠ c := fun e => h (by simp [e])
    have hr : c ∉ pre := fun m => h (List.mem_cons_of_mem _ m)
    rw [List.cons_append, find_from, if_neg hx, ih (first + 1) hr, List.length_cons]
    omega

theorem mem_split_first (l : List Nat) (c : Nat) (h : c ∈ l) :
    ∃ pre rest, l = pre ++ c :: rest ∧ c ∉ pre := by
  induction l with
  | nil => simp at h
  | cons x l ih =>
    by_cases hx : x = c
    · exact ⟨[], l, by simp [hx], by simp⟩
    · have hl : c ∈ l := by
        rcases List.mem_cons.mp h with e | m
        · exact absurd e.symm hx
        · exact m
      obtain ⟨pre, rest, e, hp⟩ := ih hl
      refine ⟨x :: pre, rest, by simp [e], ?_⟩
      intro m
      rcases List.mem_cons.mp m with e' | m'
      · exact hx e'.symm
      · exact hp m'

theorem get_sep_absent (rest : List Nat) (pre : List Nat) (start end_ : Nat)
    (hpre : start ∉ pre) (hend : end_ ∉ rest) :
    get_sep (pre ++ start :: rest) start end_ = rest := by
  have h1 : find (pre ++ start :: rest) 0 start = pre.length := by
    simp [find, find_from_append 0 pre rest start hpre]
  have h2 : find (pre ++ start :: rest) (pre.length + 1) end_
      = pre.length + 1 + rest.length := by
    simp [find, List.drop_append, find_from_not_mem _ rest end_ hend]
  unfold get_sep
  simp only [h1, h2]
  cases rest with
  | nil => simp
  | cons y ys => simp [List.drop_append]

theorem get_sep_present (pre mid tail : List Nat) (start end_ : Nat)
    (hpre : start ∉ pre) (hmid : end_ ∉ mid) :
    get_sep (pre ++ start :: (mid ++ end_ :: tail)) start end_ = mid := by
  have h1 : find (pre ++ start :: (mid ++ end_ :: tail)) 0 start = pre.length := by
    simp [find, find_from_append 0 pre _ start hpre]
  have h2 : find (pre ++ start :: (mid ++ end_ :: tail)) (pre.length + 1) end_
      = pre.length + 1 + mid.length := by
    simp [find, List.drop_append, find_from_append _ mid tail end_ hmid]
  unfold get_sep
  simp only [h1, h2]
  cases mid with
  | nil => simp
  | cons y ys => simp [List.drop_append]

/-- C1: when the start marker occurs in the text, `get_sep` returns the part of the
text that begins just after the first occurrence of the start marker and ends just
before the first occurrence of the end marker from there on, or at the end of the
text when the end marker does not occur there. The result never contains the end
marker, and it is empty when the end marker directly follows the start marker. -/
theorem get_sep_between (str : List Nat) (start end_ : Nat) (h : start ∈ str) :
    ∃ pre rest, str = pre ++ start :: rest ∧ start ∉ pre ∧
      ((end_ ∉ rest ∧ get_sep str start end_ = rest) ∨
       (∃ mid tail, rest = mid ++ end_ :: tail ∧ end_ ∉ mid ∧ get_sep str start end_ = mid)) ∧
      end_ ∉ get_sep str start end_ ∧
      (rest.head? = some end_ → get_sep str start end_ = []) := by
  obtain ⟨pre, rest, hstr, hpre⟩ := mem_split_first str start h
  refine ⟨pre, rest, hstr, hpre, ?_⟩
  subst hstr
  by_cases hend : end_ ∈ rest
  · obtain ⟨mid, tail, hrest, hmid⟩ := mem_split_first rest end_ hend
    subst hrest
    have hres := get_sep_present pre mid tail start end_ hpre hmid
    refine ⟨Or.inr ⟨mid, tail, rfl, hmid, hres⟩, by rw [hres]; exact hmid, ?_⟩
    intro hhead
    rw [hres]
    cases mid with
    | nil => rfl
    | cons y ys =>
      simp only [List.cons_append, List.head?_cons, Option.some.injEq] at hhead
      exact absurd (by simp [hhead]) hmid
  · have hres := get_sep_absent rest pre start end_ hpre hend
    refine ⟨Or.inl ⟨hend, hres⟩, by rw [hres]; exact hend, ?_⟩
    intro hhead
    cases rest with
    | nil => simp at hhead
    | cons y ys =>
      simp only [List.head?_cons, Option.some.injEq] at hhead
      exact absurd (by simp [hhead]) hend

/-- C1, at the text `1,234` with start marker `,` and end marker NUL: the start
marker occurs and the result is `234`. -/
theorem get_sep_between_witness :
    (44 ∈ [49, 44, 50, 51, 52]) ∧ get_sep [49, 44, 50, 51, 52] 44 0 = [50, 51, 52] ∧
    ∃ pre rest, [49, 44, 50, 51, 52] = pre ++ 44 :: rest ∧ 44 ∉ pre ∧
      ((0 ∉ rest ∧ get_sep [49, 44, 50, 51, 52] 44 0 = rest) ∨
       (∃ mid tail, rest = mid ++ 0 :: tail ∧ 0 ∉ mid ∧
          get_sep [49, 44, 50, 51, 52] 44 0 = mid)) ∧
      0 ∉ get_sep [49, 44, 50, 51, 52] 44 0 ∧
      (rest.head? = some 0 → get_sep [49, 44, 50, 51, 52] 44 0 = []) :=
  ⟨by decide, by decide, get_sep_between [49, 44, 50, 51, 52] 44 0 (by decide)⟩

/-- C2: when the start marker does not occur in the text, `get_sep` returns the
empty string whatever the end marker is; `get_thousand_sep` and `get_decim_sep`
return what `get_sep` returns. -/
theorem get_sep_no_start (str : List Nat) (start end_ : Nat) :
    (start ∉ str → get_sep str start end_ = []) ∧
    get_thousand_sep str start end_ = get_sep str start end_ ∧
    get_decim_sep str start end_ = get_sep str start end_ := by
  refine ⟨?_, rfl, rfl⟩
  intro h
  have h1 : find str 0 start = str.length := by
    simp [find, find_from_not_mem 0 str start h]
  simp [get_sep, h1]

/-- C2, at the text `1234` with start marker `,` and end marker NUL. -/
theorem get_sep_no_start_witness :
    44 ∉ [49, 50, 51, 52] ∧ get_sep [49, 50, 51, 52] 44 0 = [] :=
  ⟨by decide, (get_sep_no_start [49, 50, 51, 52] 44 0).1 (by decide)⟩

/-! ## Theorems: the punctuation facet -/

theorem icu_numpunct_fst (decimal_symbol separator_symbol : List Nat) (grouping_size : Int) :
    (icu_numpunct.icu_numpunct decimal_symbol separator_symbol grouping_size).1 =
      { decimal_point_ := if decimal_symbol.length > 1 then [46] else decimal_symbol
        thousands_sep_ := if separator_symbol.length > 1 then [32] else separator_symbol
        grouping_ := [(grouping_size % 256).toNat] } := by
  unfold icu_numpunct.icu_numpunct
  by_cases h1 : decimal_symbol.length > 1 <;> by_cases h2 : separator_symbol.length > 1 <;>
    simp [h1, h2]

theorem icu_numpunct_snd (decimal_symbol separator_symbol : List Nat) (grouping_size : Int) :
    (icu_numpunct.icu_numpunct decimal_symbol separator_symbol grouping_size).2 =
      (if decimal_symbol.length > 1 then
        [lit "Truncating decimal separator '" ++ decimal_symbol ++ lit "' - "
          ++ hex_dump decimal_symbol ++ [10]] else []) ++
      (if separator_symbol.length > 1 then
        [lit "Truncating thousands separator '" ++ separator_symbol ++ lit "' - "
          ++ hex_dump separator_symbol ++ [10]] else []) := by
  unfold icu_numpunct.icu_numpunct
  by_cases h1 : decimal_symbol.length > 1 <;> by_cases h2 : separator_symbol.length > 1 <;>
    simp [h1, h2]

theorem reported_outside_ascii (symbol : List Nat) (fallback : Nat) (hf : fallback < 128) :
    128 ≤ (match (if symbol.length > 1 then [fallback] else symbol) with
      | [] => 0
      | c :: _ => c) →
    symbol = [match (if symbol.length > 1 then [fallback] else symbol) with
      | [] => 0
      | c :: _ => c] := by
  match symbol with
  | [] => simp
  | [c] => simp
  | _ :: _ :: _ =>
    simp only [List.length_cons, gt_iff_lt, Nat.lt_add_left_iff_pos, Nat.zero_lt_succ, if_true]
    intro h
    omega

/-- C3: the facet built by `icu_numpunct` reports `.` (46) as decimal point when the
decimal symbol is longer than one byte and a space (32) as thousands separator when
the grouping symbol is longer than one byte; what is reported for one symbol does
not depend on the other symbol or on the grouping size; the separator strings the
facet holds are never longer than one character; and a byte outside ASCII (as the
first byte of a multi-byte UTF-8 sequence is) is reported only when the symbol is
that one byte alone. -/
theorem icu_numpunct_fallback (decimal_symbol separator_symbol : List Nat)
    (grouping_size : Int) :
    (decimal_symbol.length > 1 →
      (icu_numpunct.icu_numpunct decimal_symbol separator_symbol grouping_size).1.do_decimal_point
        = 46) ∧
    (separator_symbol.length > 1 →
      (icu_numpunct.icu_numpunct decimal_symbol separator_symbol grouping_size).1.do_thousands_sep
        = 32) ∧
    (∀ (other : List Nat) (n : Int),
      (icu_numpunct.icu_numpunct decimal_symbol other n).1.do_decimal_point =
      (icu_numpunct.icu_numpunct decimal_symbol separator_symbol grouping_size).1.do_decimal_point) ∧
    (∀ (other : List Nat) (n : Int),
      (icu_numpunct.icu_numpunct other separator_symbol n).1.do_thousands_sep =
      (icu_numpunct.icu_numpunct decimal_symbol separator_symbol grouping_size).1.do_thousands_sep) ∧
    (icu_numpunct.icu_numpunct decimal_symbol separator_symbol grouping_size).1.decimal_point_.length
      ≤ 1 ∧
    (icu_numpunct.icu_numpunct decimal_symbol separator_symbol grouping_size).1.thousands_sep_.length
      ≤ 1 ∧
    (128 ≤
      (icu_numpunct.icu_numpunct decimal_symbol separator_symbol grouping_size).1.do_decimal_point →
      decimal_symbol =
        [(icu_numpunct.icu_numpunct decimal_symbol separator_symbol grouping_size).1.do_decimal_point]) ∧
    (128 ≤
      (icu_numpunct.icu_numpunct decimal_symbol separator_symbol grouping_size).1.do_thousands_sep →
      separator_symbol =
        [(icu_numpunct.icu_numpunct decimal_symbol separator_symbol grouping_size).1.do_thousands_sep]) := by
  simp only [icu_numpunct_fst, icu_numpunct.do_decimal_point, icu_numpunct.do_thousands_sep]
  refine ⟨?_, ?_, ?_, ?_, ?_, ?_, ?_, ?_⟩
  · intro h
    simp [h]
  · intro h
    simp [h]
  · intro _ _
    trivial
  · intro _ _
    trivial
  · split
    · simp
    · omega
  · split
    · simp
    · omega
  · exact reported_outside_ascii decimal_symbol 46 (by decide)
  · exact reported_outside_ascii separator_symbol 32 (by decide)

/-- C3, at the symbols of a locale whose decimal separator is `,` and whose grouping
separator is U+00A0 (bytes `c2 a0`), and at one whose decimal separator is U+066B
(bytes `d9 ab`). -/
theorem icu_numpunct_fallback_witness :
    ([217, 171].length > 1 ∧
      (icu_numpunct.icu_numpunct [217, 171] [194, 160] 3).1.do_decimal_point = 46) ∧
    ([194, 160].length > 1 ∧
      (icu_numpunct.icu_numpunct [44] [194, 160] 3).1.do_thousands_sep = 32) :=
  ⟨⟨by decide, (icu_numpunct_fallback [217, 171] [194, 160] 3).1 (by decide)⟩,
   ⟨by decide, (icu_numpunct_fallback [44] [194, 160] 3).2.1 (by decide)⟩⟩

/-- C10: a symbol of at most one byte is kept as it is and no print call is made for
it; a one-byte symbol is reported as that byte and an empty symbol as the zero
character; `do_grouping` returns a string of length one whose only character is the
queried grouping size converted to `char`, which is the size itself when the size
fits a byte. -/
theorem icu_numpunct_short_symbol (decimal_symbol separator_symbol : List Nat)
    (grouping_size : Int) :
    (decimal_symbol.length ≤ 1 →
      (icu_numpunct.icu_numpunct decimal_symbol separator_symbol grouping_size).1.decimal_point_
        = decimal_symbol ∧
      (icu_numpunct.icu_numpunct decimal_symbol separator_symbol grouping_size).2 =
        (icu_numpunct.icu_numpunct [] separator_symbol grouping_size).2) ∧
    (separator_symbol.length ≤ 1 →
      (icu_numpunct.icu_numpunct decimal_symbol separator_symbol grouping_size).1.thousands_sep_
        = separator_symbol ∧
      (icu_numpunct.icu_numpunct decimal_symbol separator_symbol grouping_size).2 =
        (icu_numpunct.icu_numpunct decimal_symbol [] grouping_size).2) ∧
    (decimal_symbol.length ≤ 1 → separator_symbol.length ≤ 1 →
      (icu_numpunct.icu_numpunct decimal_symbol separator_symbol grouping_size).2 = []) ∧
    (∀ c : Nat,
      (icu_numpunct.icu_numpunct [c] separator_symbol grouping_size).1.do_decimal_point = c ∧
      (icu_numpunct.icu_numpunct decimal_symbol [c] grouping_size).1.do_thousands_sep = c) ∧
    (icu_numpunct.icu_numpunct [] separator_symbol grouping_size).1.do_decimal_point = 0 ∧
    (icu_numpunct.icu_numpunct decimal_symbol [] grouping_size).1.do_thousands_sep = 0 ∧
    (icu_numpunct.icu_numpunct decimal_symbol separator_symbol grouping_size).1.do_grouping
      = [(grouping_size % 256).toNat] ∧
    (icu_numpunct.icu_numpunct decimal_symbol separator_symbol grouping_size).1.do_grouping.length
      = 1 ∧
    (0 ≤ grouping_size → grouping_size < 256 →
      (icu_numpunct.icu_numpunct decimal_symbol separator_symbol grouping_size).1.do_grouping
        = [grouping_size.toNat]) := by
  simp only [icu_numpunct_fst, icu_numpunct_snd, icu_numpunct.do_decimal_point,
    icu_numpunct.do_thousands_sep, icu_numpunct.do_grouping]
  refine ⟨?_, ?_, ?_, ?_, ?_, ?_, ?_, ?_, ?_⟩
  · intro h
    have h1 : ¬ decimal_symbol.length > 1 := by omega
    simp [h1]
  · intro h
    have h1 : ¬ separator_symbol.length > 1 := by omega
    simp [h1]
  · intro h h'
    have h1 : ¬ decimal_symbol.length > 1 := by omega
    have h2 : ¬ separator_symbol.length > 1 := by omega
    simp [h1, h2]
  · intro c
    simp
  · simp
  · simp
  · trivial
  · simp
  · intro h0 h1
    rw [Int.emod_eq_of_lt h0 h1]

/-- C10, at the symbols `.` and `,` with grouping size 3, and at an empty decimal
symbol. -/
theorem icu_numpunct_short_symbol_witness :
    ([46].length ≤ 1 ∧ [44].length ≤ 1 ∧
      (icu_numpunct.icu_numpunct [46] [44] 3).2 = []) ∧
    (([] : List Nat).length ≤ 1 ∧ (icu_numpunct.icu_numpunct [] [44] 3).1.decimal_point_ = []) ∧
    ((0 : Int) ≤ 3 ∧ (3 : Int) < 256 ∧
      (icu_numpunct.icu_numpunct [46] [44] 3).1.do_grouping = [3]) :=
  ⟨⟨by decide, by decide, (icu_numpunct_short_symbol [46] [44] 3).2.2.1 (by decide) (by decide)⟩,
   ⟨by decide, ((icu_numpunct_short_symbol [] [44] 3).1 (by decide)).1⟩,
   ⟨by decide, by decide,
    (icu_numpunct_short_symbol [46] [44] 3).2.2.2.2.2.2.2.2 (by decide) (by decide)⟩⟩

/-- C5: for a facet with an empty grouping string `inspect_locale` reports the zero
character as thousands separator, whatever `thousands_sep()` of the facet is, and
prints it as such; for a facet with a non-empty grouping string it reports the
facet's `thousands_sep()`; the decimal point reported is the facet's
`decimal_point()` in both cases. -/
theorem inspect_locale_reports (facet : numpunct) :
    (facet.grouping = [] →
      (inspect_locale facet).thousands_sep = 0 ∧
      (inspect_locale facet).printed =
        lit "G: '', T: '" ++ [0] ++ lit "' - 0x0, D: '" ++ [facet.decimal_point] ++ lit "'\n") ∧
    (facet.grouping ≠ [] →
      (inspect_locale facet).thousands_sep = facet.thousands_sep ∧
      (inspect_locale facet).printed =
        lit "G: '" ++ (inspect_locale facet).grouping_string ++ lit "', T: '"
          ++ [facet.thousands_sep] ++ lit "' - " ++ fmt_hex facet.thousands_sep
          ++ lit ", D: '" ++ [facet.decimal_point] ++ lit "'\n") ∧
    (inspect_locale facet).decim_sep = facet.decimal_point := by
  refine ⟨?_, ?_, rfl⟩
  · intro h
    have e1 : lit "G: '', T: '" = lit "G: '" ++ lit "', T: '" := by decide
    have e2 : lit "' - 0x0, D: '" = lit "' - " ++ fmt_hex 0 ++ lit ", D: '" := by decide
    simp [inspect_locale, h, e1, e2, List.append_assoc]
  · intro h
    have h1 : facet.grouping.isEmpty = false := by
      cases hg : facet.grouping with
      | nil => exact absurd hg h
      | cons x xs => rfl
    simp [inspect_locale, h1]

/-- C5, at a facet with an empty grouping string that holds `,` as thousands
separator, and at a facet with grouping `\x03`. -/
theorem inspect_locale_reports_witness :
    ((numpunct.mk 46 44 []).grouping = [] ∧
      (inspect_locale (numpunct.mk 46 44 [])).thousands_sep = 0) ∧
    ((numpunct.mk 46 44 [3]).grouping ≠ [] ∧
      (inspect_locale (numpunct.mk 46 44 [3])).thousands_sep = 44) :=
  ⟨⟨rfl, ((inspect_locale_reports (numpunct.mk 46 44 [])).1 rfl).1⟩,
   ⟨by decide, ((inspect_locale_reports (numpunct.mk 46 44 [3])).2.1 (by decide)).1⟩⟩

/-! ## Theorems: backend dispatch and rendering -/

/-- C7: for every kind other than `Qt`, `format_int` and `format_double` render
with the same locale, generated for the given locale string by a manager on which
`posix` is selected exactly for `FMTBoostPosix` and `StreamBoostPosix`, `std`
exactly for `FMTBoostStd` and `StreamBoostStd`, and `icu` exactly for `FMTBoostICU`,
`FMTBoostICUMod` and `StreamBoostICU`; the `icu_numpunct` facet is installed in that
locale exactly when the kind is `FMTBoostICUMod`. -/
theorem format_locale_resolution (val : Int) (dval : Float) (prec : Int)
    (locale_str : String) (backend_type : LocaleBackend) (proc : Process)
    (h : backend_type ≠ LocaleBackend.Qt) :
    ∃ locale,
      (format_int val locale_str backend_type proc).1.locale? = some locale ∧
      (format_double dval prec locale_str backend_type proc).1.locale? = some locale ∧
      locale.locale_str = locale_str ∧
      (locale.backend_manager.selected = "posix" ↔
        backend_type = LocaleBackend.FMTBoostPosix ∨
        backend_type = LocaleBackend.StreamBoostPosix) ∧
      (locale.backend_manager.selected = "std" ↔
        backend_type = LocaleBackend.FMTBoostStd ∨
        backend_type = LocaleBackend.StreamBoostStd) ∧
      (locale.backend_manager.selected = "icu" ↔
        backend_type = LocaleBackend.FMTBoostICU ∨
        backend_type = LocaleBackend.FMTBoostICUMod ∨
        backend_type = LocaleBackend.StreamBoostICU) ∧
      (locale.has_icu_numpunct = true ↔ backend_type = LocaleBackend.FMTBoostICUMod) := by
  cases backend_type <;>
    first
    | exact absurd rfl h
    | (refine ⟨_, rfl, rfl, ?_⟩
       simp [Locale.locale_str, Locale.backend_manager, Locale.has_icu_numpunct,
         localization_backend_manager.select])

/-- C7, at the kind `FMTBoostICUMod`: both functions render with the locale
generated under `icu` with the `icu_numpunct` facet installed. -/
theorem format_locale_resolution_witness :
    LocaleBackend.FMTBoostICUMod ≠ LocaleBackend.Qt ∧
    ∃ locale,
      (format_int 1234567890 "pl_PL.UTF-8" LocaleBackend.FMTBoostICUMod
        (Process.mk (localization_backend_manager.mk "std"))).1.locale? = some locale ∧
      (format_double 1234567.891144 2 "pl_PL.UTF-8" LocaleBackend.FMTBoostICUMod
        (Process.mk (localization_backend_manager.mk "std"))).1.locale? = some locale ∧
      locale.locale_str = "pl_PL.UTF-8" ∧
      (locale.backend_manager.selected = "posix" ↔
        LocaleBackend.FMTBoostICUMod = LocaleBackend.FMTBoostPosix ∨
        LocaleBackend.FMTBoostICUMod = LocaleBackend.StreamBoostPosix) ∧
      (locale.backend_manager.selected = "std" ↔
        LocaleBackend.FMTBoostICUMod = LocaleBackend.FMTBoostStd ∨
        LocaleBackend.FMTBoostICUMod = LocaleBackend.StreamBoostStd) ∧
      (locale.backend_manager.selected = "icu" ↔
        LocaleBackend.FMTBoostICUMod = LocaleBackend.FMTBoostICU ∨
        LocaleBackend.FMTBoostICUMod = LocaleBackend.FMTBoostICUMod ∨
        LocaleBackend.FMTBoostICUMod = LocaleBackend.StreamBoostICU) ∧
      (locale.has_icu_numpunct = true ↔
        LocaleBackend.FMTBoostICUMod = LocaleBackend.FMTBoostICUMod) :=
  ⟨by decide,
   format_locale_resolution 1234567890 1234567.891144 2 "pl_PL.UTF-8"
     LocaleBackend.FMTBoostICUMod (Process.mk (localization_backend_manager.mk "std"))
     (by decide)⟩

/-- C8: for every kind other than `Qt`, `format_int` and `format_double` render
through a `std::stringstream` imbued with the resolved locale exactly when the kind
is `StreamBoostICU`, `StreamBoostPosix` or `StreamBoostStd`, and through
`fmt::format` with the `L` flag and the resolved locale for every other kind; both
functions take the same path, and a locale with the `icu_numpunct` facet installed
is only ever passed to `fmt::format`. -/
theorem format_rendering_path (val : Int) (dval : Float) (prec : Int)
    (locale_str : String) (backend_type : LocaleBackend) (proc : Process)
    (h : backend_type ≠ LocaleBackend.Qt) :
    ∃ locale,
      ((backend_type = LocaleBackend.StreamBoostICU ∨
        backend_type = LocaleBackend.StreamBoostPosix ∨
        backend_type = LocaleBackend.StreamBoostStd) →
        (format_int val locale_str backend_type proc).1 =
          Rendering.stream locale [Item.as_number, Item.int_val val] ∧
        (format_double dval prec locale_str backend_type proc).1 =
          Rendering.stream locale
            [Item.setprecision prec, Item.fixed, Item.as_number, Item.double_val dval]) ∧
      (¬ (backend_type = LocaleBackend.StreamBoostICU ∨
          backend_type = LocaleBackend.StreamBoostPosix ∨
          backend_type = LocaleBackend.StreamBoostStd) →
        (format_int val locale_str backend_type proc).1 =
          Rendering.fmt_format locale "\x7b:L\x7d" [Item.int_val val] ∧
        (format_double dval prec locale_str backend_type proc).1 =
          Rendering.fmt_format locale "\x7b:.\x7b\x7dLf\x7d"
            [Item.double_val dval, Item.int_val prec]) ∧
      ((format_int val locale_str backend_type proc).1.is_stream = true ↔
        (backend_type = LocaleBackend.StreamBoostICU ∨
         backend_type = LocaleBackend.StreamBoostPosix ∨
         backend_type = LocaleBackend.StreamBoostStd)) ∧
      (format_double dval prec locale_str backend_type proc).1.is_stream =
        (format_int val locale_str backend_type proc).1.is_stream ∧
      (format_double dval prec locale_str backend_type proc).1.is_fmt =
        (format_int val locale_str backend_type proc).1.is_fmt ∧
      (format_int val locale_str backend_type proc).1.is_fmt =
        !(format_int val locale_str backend_type proc).1.is_stream ∧
      (locale.has_icu_numpunct = true →
        (format_int val locale_str backend_type proc).1.is_fmt = true ∧
        (format_double dval prec locale_str backend_type proc).1.is_fmt = true) := by
  cases backend_type <;>
    first
    | exact absurd rfl h
    | (refine ⟨_, fun _ => ⟨rfl, rfl⟩, by simp, ?_, rfl, rfl, rfl, ?_⟩ <;>
        simp [format_int, format_double, Rendering.is_stream, Rendering.is_fmt,
          Locale.has_icu_numpunct])
    | (refine ⟨_, by simp, fun _ => ⟨rfl, rfl⟩, ?_, rfl, rfl, rfl, ?_⟩ <;>
        simp [format_int, format_double, Rendering.is_stream, Rendering.is_fmt,
          Locale.has_icu_numpunct])

/-- C8, at the kinds `StreamBoostPosix` and `FMTBoostICUMod`: the first renders
through the stream, the second through `fmt::format`. -/
theorem format_rendering_path_witness :
    (LocaleBackend.StreamBoostPosix ≠ LocaleBackend.Qt ∧
      (format_int 1234567890 "en_US.UTF-8" LocaleBackend.StreamBoostPosix
        (Process.mk (localization_backend_manager.mk "icu"))).1.is_stream = true) ∧
    (LocaleBackend.FMTBoostICUMod ≠ LocaleBackend.Qt ∧
      (format_double 1234567.891144 2 "en_US.UTF-8" LocaleBackend.FMTBoostICUMod
        (Process.mk (localization_backend_manager.mk "icu"))).1.is_fmt =
      (format_int 1234567890 "en_US.UTF-8" LocaleBackend.FMTBoostICUMod
        (Process.mk (localization_backend_manager.mk "icu"))).1.is_fmt) :=
  ⟨⟨by decide,
    match format_rendering_path 1234567890 1234567.891144 2 "en_US.UTF-8"
      LocaleBackend.StreamBoostPosix (Process.mk (localization_backend_manager.mk "icu"))
      (by decide) with
    | ⟨_, hp⟩ => hp.2.2.1.mpr (by decide)⟩,
   ⟨by decide,
    match format_rendering_path 1234567890 1234567.891144 2 "en_US.UTF-8"
      LocaleBackend.FMTBoostICUMod (Process.mk (localization_backend_manager.mk "icu"))
      (by decide) with
    | ⟨_, hp⟩ => hp.2.2.2.2.1⟩⟩

/-- C6, as stated, fails: called with precision `-1` and the kind `StreamBoostStd`,
`format_double` is not rejected; it builds the locale and inserts the value into
the stream after `std::setprecision(-1)`. -/
theorem format_double_negative_prec_counterexample :
    (format_double 1234567.891144 (-1) "en_US.UTF-8" LocaleBackend.StreamBoostStd
      (Process.mk (localization_backend_manager.mk "icu"))).1 =
      Rendering.stream
        (Locale.generated (localization_backend_manager.mk "std") "en_US.UTF-8")
        [Item.setprecision (-1), Item.fixed, Item.as_number, Item.double_val 1234567.891144] ∧
    (format_double 1234567.891144 (-1) "en_US.UTF-8" LocaleBackend.StreamBoostStd
      (Process.mk (localization_backend_manager.mk "icu"))).1.locale? =
      some (Locale.generated (localization_backend_manager.mk "std") "en_US.UTF-8") :=
  ⟨rfl, rfl⟩

/-- C6, amended: `format_double` makes no check of the precision. For every
precision, the negative ones included, it does the same: for the kind `Qt` it passes
the precision to `QLocale::toString`; for every other kind it builds the locale for
the locale string and passes the precision, unchanged, to `std::setprecision` on the
stream path and to `fmt::format` as the dynamic precision on the other path. -/
theorem format_double_precision_unchecked (val : Float) (prec : Int) (locale_str : String)
    (backend_type : LocaleBackend) (proc : Process) :
    (backend_type = LocaleBackend.Qt ∧
      (format_double val prec locale_str backend_type proc).1 =
        Rendering.qt_double locale_str val prec) ∨
    (backend_type ≠ LocaleBackend.Qt ∧
      ∃ locale,
        (format_double val prec locale_str backend_type proc).1.locale? = some locale ∧
        locale.locale_str = locale_str ∧
        ((format_double val prec locale_str backend_type proc).1 =
            Rendering.stream locale
              [Item.setprecision prec, Item.fixed, Item.as_number, Item.double_val val] ∨
         (format_double val prec locale_str backend_type proc).1 =
            Rendering.fmt_format locale "\x7b:.\x7b\x7dLf\x7d"
              [Item.double_val val, Item.int_val prec])) := by
  cases backend_type <;>
    first
    | exact Or.inl ⟨rfl, rfl⟩
    | exact Or.inr ⟨by decide, _, rfl, rfl, Or.inl rfl⟩
    | exact Or.inr ⟨by decide, _, rfl, rfl, Or.inr rfl⟩

/-- C6, amended, at precision `-1` and the kind `FMTBoostICU`. -/
theorem format_double_precision_unchecked_witness :
    ((LocaleBackend.FMTBoostICU = LocaleBackend.Qt ∧
      (format_double 1234567.891144 (-1) "en_US.UTF-8" LocaleBackend.FMTBoostICU
        (Process.mk (localization_backend_manager.mk "icu"))).1 =
        Rendering.qt_double "en_US.UTF-8" 1234567.891144 (-1)) ∨
    (LocaleBackend.FMTBoostICU ≠ LocaleBackend.Qt ∧
      ∃ locale,
        (format_double 1234567.891144 (-1) "en_US.UTF-8" LocaleBackend.FMTBoostICU
          (Process.mk (localization_backend_manager.mk "icu"))).1.locale? = some locale ∧
        locale.locale_str = "en_US.UTF-8" ∧
        ((format_double 1234567.891144 (-1) "en_US.UTF-8" LocaleBackend.FMTBoostICU
            (Process.mk (localization_backend_manager.mk "icu"))).1 =
            Rendering.stream locale
              [Item.setprecision (-1), Item.fixed, Item.as_number,
               Item.double_val 1234567.891144] ∨
         (format_double 1234567.891144 (-1) "en_US.UTF-8" LocaleBackend.FMTBoostICU
            (Process.mk (localization_backend_manager.mk "icu"))).1 =
            Rendering.fmt_format locale "\x7b:.\x7b\x7dLf\x7d"
              [Item.double_val 1234567.891144, Item.int_val (-1)]))) :=
  format_double_precision_unchecked 1234567.891144 (-1) "en_US.UTF-8"
    LocaleBackend.FMTBoostICU (Process.mk (localization_backend_manager.mk "icu"))

/-- C9, as stated, fails: with `icu` selected on the process-wide manager, a call of
`format_int` with the kind `FMTBoostPosix` generates its locale under `posix` and
leaves `icu` selected on the process-wide manager. -/
theorem format_int_global_counterexample :
    (format_int 1234567890 "en_US.UTF-8" LocaleBackend.FMTBoostPosix
      (Process.mk (localization_backend_manager.mk "icu"))).2.global.selected = "icu" ∧
    (format_int 1234567890 "en_US.UTF-8" LocaleBackend.FMTBoostPosix
      (Process.mk (localization_backend_manager.mk "icu"))).1.locale? =
      some (Locale.generated (localization_backend_manager.mk "posix") "en_US.UTF-8") ∧
    (format_double 1234567.891144 2 "en_US.UTF-8" LocaleBackend.FMTBoostPosix
      (Process.mk (localization_backend_manager.mk "icu"))).2.global.selected = "icu" :=
  ⟨rfl, rfl, rfl⟩

/-- C9, amended: `format_int` and `format_double` select the provider on their own
copy of the manager that `localization_backend_manager::global()` returns and
generate the locale of the call with that copy; the process-wide manager is the same
after the call as before it, for every kind, so the selection made by one call is
not visible to the next. -/
theorem format_leaves_global (val : Int) (dval : Float) (prec : Int)
    (locale_str : String) (backend_type : LocaleBackend) (proc : Process) :
    (format_int val locale_str backend_type proc).2 = proc ∧
    (format_double dval prec locale_str backend_type proc).2 = proc ∧
    (backend_type ≠ LocaleBackend.Qt →
      ∃ name locale,
        (format_int val locale_str backend_type proc).1.locale? = some locale ∧
        (format_double dval prec locale_str backend_type proc).1.locale? = some locale ∧
        locale.backend_manager = proc.global.select name ∧
        (name = "posix" ∨ name = "std" ∨ name = "icu")) := by
  cases backend_type <;>
    first
    | exact ⟨rfl, rfl, fun h => absurd rfl h⟩
    | exact ⟨rfl, rfl, fun _ => ⟨"posix", _, rfl, rfl, rfl, by decide⟩⟩
    | exact ⟨rfl, rfl, fun _ => ⟨"std", _, rfl, rfl, rfl, by decide⟩⟩
    | exact ⟨rfl, rfl, fun _ => ⟨"icu", _, rfl, rfl, rfl, by decide⟩⟩

/-- C9, amended, at the kind `StreamBoostStd` with `icu` selected on the
process-wide manager. -/
theorem format_leaves_global_witness :
    LocaleBackend.StreamBoostStd ≠ LocaleBackend.Qt ∧
    (format_int 1234567890 "en_US.UTF-8" LocaleBackend.StreamBoostStd
      (Process.mk (localization_backend_manager.mk "icu"))).2 =
      Process.mk (localization_backend_manager.mk "icu") ∧
    ∃ name locale,
      (format_int 1234567890 "en_US.UTF-8" LocaleBackend.StreamBoostStd
        (Process.mk (localization_backend_manager.mk "icu"))).1.locale? = some locale ∧
      (format_double 1234567.891144 2 "en_US.UTF-8" LocaleBackend.StreamBoostStd
        (Process.mk (localization_backend_manager.mk "icu"))).1.locale? = some locale ∧
      locale.backend_manager = (localization_backend_manager.mk "icu").select name ∧
      (name = "posix" ∨ name = "std" ∨ name = "icu") :=
  ⟨by decide,
   (format_leaves_global 1234567890 1234567.891144 2 "en_US.UTF-8"
     LocaleBackend.StreamBoostStd (Process.mk (localization_backend_manager.mk "icu"))).1,
   (format_leaves_global 1234567890 1234567.891144 2 "en_US.UTF-8"
     LocaleBackend.StreamBoostStd (Process.mk (localization_backend_manager.mk "icu"))).2.2
     (by decide)⟩

end LocaleFmt
